import Mathlib

/-!
Shallow embedding of the CareSync adherence and access-authorization core
(backend controllers: caregiver/adherence controller and medication
controller).  JavaScript numbers holding stock counts are modelled as `Int`
(the code can drive them negative); timestamps are abstract `Nat` instants;
calendar time in the schedule generator is counted in minutes, with a
calendar date represented by its day number (1 day = 1440 minutes).
JS `undefined` for an optional request field is modelled by `Option`;
the falsy-default idiom `x || d` on such a field becomes `Option.getD`.
-/

namespace CareSync

/-- User row: only the fields the authorization logic reads.  Roles are the
strings used by the code: "patient", "caregiver", "admin",
"healthcareprovider". -/
structure User where
  id : Nat
  role : String
deriving DecidableEq, Repr

/-- CaregiverPatient relationship row (join entity).  `relationshipType`
models the `relationship` column; the `permissions` JSON column is unused by
the authorization logic and omitted. -/
structure CaregiverPatient where
  id : Nat
  caregiverId : Nat
  patientId : Nat
  relationshipType : String
  isVerified : Bool
  isActive : Bool
deriving DecidableEq, Repr

/-- Medication row, fields read by the medication controller. -/
structure Medication where
  id : Nat
  userId : Nat
  name : String
  dosage : String
  dosageUnit : String
  timesPerDay : Nat
  totalQuantity : Int
  remainingQuantity : Int
  isActive : Bool
deriving DecidableEq, Repr

/-- Adherence record row. -/
structure Adherence where
  id : Nat
  userId : Nat
  medicationId : Nat
  status : String
  takenAt : Nat
  scheduledTime : Nat
deriving DecidableEq, Repr

/-- The shared persistent store as seen by the adherence controller. -/
structure Store where
  medications : List Medication
  adherence : List Adherence
deriving DecidableEq, Repr

/-- AccessGate `_validateAccess(requestingUser, targetUserId)` from the
adherence controller (the medication controller carries an identical copy):
self access, then broad role access for admin / healthcareprovider, then the
caregiver-relationship lookup, else deny. -/
def _validateAccess (rels : List CaregiverPatient) (requestingUser : User)
    (targetUserId : Nat) : Bool :=
  if requestingUser.id = targetUserId then true
  else if requestingUser.role = "admin" ∨ requestingUser.role = "healthcareprovider" then true
  else if requestingUser.role = "caregiver" then
    rels.any fun r =>
      r.caregiverId == requestingUser.id && r.patientId == targetUserId &&
        r.isActive && r.isVerified
  else false

/-- Claimed truth table for the access check, written from the claim's own
words: self access, broad roles, or an active and verified relationship row
(with no condition on the requester's role for the third disjunct). -/
def accessClaim (rels : List CaregiverPatient) (R : User) (T : Nat) : Prop :=
  R.id = T ∨ R.role = "admin" ∨ R.role = "healthcareprovider" ∨
    ∃ r ∈ rels, r.caregiverId = R.id ∧ r.patientId = T ∧
      r.isActive = true ∧ r.isVerified = true

/-- Sequelize `Medication.findByPk(id)`. -/
def findByPk (meds : List Medication) (id : Nat) : Option Medication :=
  meds.find? fun m => m.id == id

/-- Sequelize `med.decrement('remainingQuantity', { by: 1 })`: a plain
`UPDATE ... SET remainingQuantity = remainingQuantity - 1` on that row. -/
def decrementRemaining (meds : List Medication) (id : Nat) : List Medication :=
  meds.map fun m =>
    if m.id == id then { m with remainingQuantity := m.remainingQuantity - 1 } else m

/-- AdherenceLedger `recordAdherence` (POST /adherence): creates the record
unconditionally with `status || 'taken'` and time defaults, then decrements
stock only when the raw request `status === 'taken'` and the medication row
exists.  `now` stands for `new Date()`, `freshId` for the generated row id. -/
def recordAdherence (store : Store) (userId medicationId : Nat)
    (status : Option String) (takenAt scheduledTime : Option Nat)
    (now freshId : Nat) : Store :=
  let intake : Adherence :=
    { id := freshId, userId := userId, medicationId := medicationId
      status := status.getD "taken"
      takenAt := takenAt.getD now
      scheduledTime := scheduledTime.getD now }
  let store1 : Store := { store with adherence := store.adherence ++ [intake] }
  if status = some "taken" then
    match findByPk store1.medications medicationId with
    | some _ =>
        { store1 with medications := decrementRemaining store1.medications medicationId }
    | none => store1
  else store1

/-- One element of the `records` array submitted to POST /adherence/bulk.
The payload may carry its own userId; the controller overrides it. -/
structure BulkRecordInput where
  medicationId : Nat
  status : String
  takenAt : Option Nat
  scheduledTime : Nat
  userId : Option Nat
deriving DecidableEq, Repr

/-- Rows built by `records.map(record => ({...record, userId: req.user.id,
takenAt: record.takenAt || new Date()}))`: every field of the input is kept
except that userId is forced to the requester and takenAt is defaulted. -/
def mkBulkAdherence (requesterId : Nat) (records : List BulkRecordInput)
    (now freshIdBase : Nat) : List Adherence :=
  records.enum.map fun p =>
    { id := freshIdBase + p.1
      userId := requesterId
      medicationId := p.2.medicationId
      status := p.2.status
      takenAt := p.2.takenAt.getD now
      scheduledTime := p.2.scheduledTime }

/-- AdherenceLedger `bulkRecordAdherence` (POST /adherence/bulk): rejects an
empty or missing records array (400), otherwise persists all mapped rows in
one `Adherence.bulkCreate` call.  The store's transactional contract makes
that single call all-or-nothing; the controller touches no medication row. -/
def bulkRecordAdherence (store : Store) (requesterId : Nat)
    (records : List BulkRecordInput) (now freshIdBase : Nat) :
    Option (Store × List Adherence) :=
  if records.isEmpty then none
  else
    some ({ store with
              adherence := store.adherence ++ mkBulkAdherence requesterId records now freshIdBase },
          mkBulkAdherence requesterId records now freshIdBase)

/-- AdherenceLedger `updateAdherenceRecord` (PUT /adherence/:id): find by
primary key, 404 when absent, 403 unless the record's own userId equals the
requester's id, else apply the request-body updates to the row.  The first
component is the HTTP status, the second the resulting store. -/
def updateAdherenceRecord (store : Store) (recordId requesterId : Nat)
    (updates : Adherence → Adherence) : Nat × Store :=
  match store.adherence.find? (fun r => r.id == recordId) with
  | none => (404, store)
  | some record =>
      if record.userId ≠ requesterId then (403, store)
      else
        (200, { store with
                  adherence := store.adherence.map fun x =>
                    if x.id == recordId then updates x else x })

/-- Medication controller `updateMedication` (PUT /medications/:id): the row
is looked up by the pair (id, userId = requester id); 404 when that lookup
fails, otherwise the request-body updates are applied.  The requester's role
is never consulted.  First component: true when the update was applied. -/
def updateMedication (meds : List Medication) (requester : User) (id : Nat)
    (updates : Medication → Medication) : Bool × List Medication :=
  match meds.find? (fun m => m.id == id && m.userId == requester.id) with
  | none => (false, meds)
  | some _ =>
      (true, meds.map fun m =>
        if m.id == id && m.userId == requester.id then updates m else m)

/-- Medication controller `deleteMedication` (DELETE /medications/:id): same
owner-scoped lookup, then soft delete via `isActive := false`. -/
def deleteMedication (meds : List Medication) (requester : User) (id : Nat) :
    Bool × List Medication :=
  match meds.find? (fun m => m.id == id && m.userId == requester.id) with
  | none => (false, meds)
  | some _ =>
      (true, meds.map fun m =>
        if m.id == id && m.userId == requester.id then { m with isActive := false } else m)

/-- Filter inside `getRefillNeeded`: `dailyDose = timesPerDay || 1;
threshold = dailyDose * 7; (remainingQuantity || 0) <= threshold`. -/
def refillNeededFilter (med : Medication) : Bool :=
  decide (med.remainingQuantity ≤ ((if med.timesPerDay = 0 then 1 else med.timesPerDay) * 7 : Int))

/-- Flag computed inside `getUpcomingDoses`:
`isRefillDue: med.remainingQuantity < 10`. -/
def isRefillDue (med : Medication) : Bool :=
  decide (med.remainingQuantity < 10)

/-- Predicate behind the `lowStock` count in `getMedicationStats`:
`remainingQuantity: { [Op.lte]: 10 }`. -/
def lowStockFilter (med : Medication) : Bool :=
  decide (med.remainingQuantity ≤ 10)

/-- The spec's single canonical rule, written from its words:
`remainingQuantity <= max(timesPerDay, 1) * 7`. -/
def needsRefillSpec (med : Medication) : Bool :=
  decide (med.remainingQuantity ≤ (max med.timesPerDay 1 * 7 : Int))

/-- One emitted calendar event from `generateSchedule`.  The JS virtual id
string `medId-dayStr-i` is modelled by the (medicationId, day, occurrence)
triple; `start`/`stop` are minute instants (`stop` models the JS `end`
field).  `day` is the calendar day number of the range date the entry was
generated for, before any hour-overflow normalization. -/
structure ScheduleEntry where
  medicationId : Nat
  day : Nat
  occurrence : Nat
  title : String
  dosageLabel : String
  start : Nat
  stop : Nat
deriving DecidableEq, Repr

/-- Bit length of a natural number (so ⌊log₂ n⌋ + 1 for n ≥ 1), driven by a
fuel argument so the kernel can evaluate it; the recursion stops as soon as
the argument is exhausted, so only bitLen n steps are taken. -/
def bitLenAux : Nat → Nat → Nat
  | 0, _ => 0
  | fuel + 1, n => if n = 0 then 0 else bitLenAux fuel (n / 2) + 1

/-- Bit length with fuel 1200: enough for every integer that arises below,
since all values of the modelled computation stay inside the normal binary64
range (magnitudes between 2^(-1074) and 2^1024), far below 1200 bits. -/
def bitLen (n : Nat) : Nat := bitLenAux 1200 n

/-- Round the nonnegative rational num / den to the nearest integer, ties to
even — the default IEEE 754 rounding used by every JS arithmetic operator. -/
def roundMantissa (num den : Nat) : Nat :=
  let q0 := num / den
  let r := num % den
  if 2 * r > den then q0 + 1
  else if 2 * r < den then q0
  else if q0 % 2 = 0 then q0 else q0 + 1

/-- The binary64 quotient `24 / b` for b ≥ 1 (the JS `interval = 24 / times`),
as a pair (m, ne) denoting the value m / 2^ne with mantissa m ∈ [2^52, 2^53):
the exponent is located via bit lengths, the 53-bit mantissa is the correctly
rounded scaled quotient, and a rounding carry renormalizes. -/
def fdiv24 (b : Nat) : Nat × Nat :=
  let k := bitLen b
  let t := bitLen (24 * 2 ^ k / b)
  let ne := 53 + k - t
  let q := roundMantissa (24 * 2 ^ ne) b
  if q = 2 ^ 53 then (2 ^ 52, ne - 1) else (q, ne)

/-- Round the exact value p / 2^ne to at most 53 significant bits (ties to
even), renormalizing after a carry: the rounding step every binary64
operation ends with. -/
def normRound (p ne : Nat) : Nat × Nat :=
  let d := bitLen p - 53
  if d = 0 then (p, ne)
  else
    let q := roundMantissa p (2 ^ d)
    if q = 2 ^ 53 then (2 ^ 52, ne - d - 1) else (q, ne - d)

/-- The binary64 product `i * x` for an exactly representable integer factor
(the JS `i * interval`; loop indices stay far below 2^53). -/
def fmulNat (i : Nat) (x : Nat × Nat) : Nat × Nat :=
  normRound (i * x.1) x.2

/-- The binary64 sum `8 + x` (the JS `8 + i * interval`); the exact sum is
formed over the common denominator 2^ne and then rounded. -/
def fadd8 (x : Nat × Nat) : Nat × Nat :=
  normRound (8 * 2 ^ x.2 + x.1) x.2

/-- Truncation of the nonnegative double x toward zero, as `setHours`
performs on its argument (ToIntegerOrInfinity). -/
def floorDouble (x : Nat × Nat) : Nat :=
  x.1 / 2 ^ x.2

/-- The hour value the generator's inner loop hands to `setHours`: the JS
float computation `8 + i * (24 / times)` carried out in binary64 arithmetic
and truncated to an integer.  For i = 0 the product is exactly 0 and the
hour exactly 8; the times = 0 case is unreachable behind the `|| 1`
default.  Because of float rounding this can differ from the exact
`8 + 24 * i / times` (first at times = 692, i = 519: hour 25, not 26). -/
def jsHour (times i : Nat) : Nat :=
  if times = 0 ∨ i = 0 then 8
  else floorDouble (fadd8 (fmulNat i (fdiv24 times)))

/-- ScheduleGenerator `generateSchedule`: for each date from the start date
to start + days inclusive, for each medication, for each occurrence
`i < (timesPerDay || 1)`, emit an event at the binary64-computed hour
`8 + i * (24 / times)` of that date with minutes and seconds zeroed and a
30-minute duration.  JS `setHours` truncates its (possibly fractional)
argument and rolls an hour value of 24 or more into the following days,
which on a minute timeline is plain arithmetic: `day * 1440 + hour * 60`. -/
def generateSchedule (meds : List Medication) (startDay days : Nat) :
    List ScheduleEntry :=
  (List.range (days + 1)).flatMap fun dOff =>
    meds.flatMap fun med =>
      (List.range (if med.timesPerDay = 0 then 1 else med.timesPerDay)).map fun i =>
        { medicationId := med.id
          day := startDay + dOff
          occurrence := i
          title := "Take " ++ med.name
          dosageLabel := med.dosage ++ " " ++ med.dosageUnit
          start := (startDay + dOff) * 1440 +
            jsHour (if med.timesPerDay = 0 then 1 else med.timesPerDay) i * 60
          stop := (startDay + dOff) * 1440 +
            jsHour (if med.timesPerDay = 0 then 1 else med.timesPerDay) i * 60 + 30 }

/-- The schedule as the amended claim describes it: one entry per (date,
medication, occurrence) in that nesting order, scheduled at the truncated
binary64 hour of date d with a 30-minute window, where an hour of 24 or more
is normalized by advancing the calendar date (wrap, not clamp): the entry
lands on day `d + hour / 24` at hour `hour % 24`. -/
def scheduleSpec (meds : List Medication) (startDay days : Nat) :
    List ScheduleEntry :=
  (List.range (days + 1)).flatMap fun dOff =>
    meds.flatMap fun med =>
      (List.range (if med.timesPerDay = 0 then 1 else med.timesPerDay)).map fun i =>
        { medicationId := med.id
          day := startDay + dOff
          occurrence := i
          title := "Take " ++ med.name
          dosageLabel := med.dosage ++ " " ++ med.dosageUnit
          start := (startDay + dOff +
              jsHour (if med.timesPerDay = 0 then 1 else med.timesPerDay) i / 24) * 1440 +
            jsHour (if med.timesPerDay = 0 then 1 else med.timesPerDay) i % 24 * 60
          stop := (startDay + dOff +
              jsHour (if med.timesPerDay = 0 then 1 else med.timesPerDay) i / 24) * 1440 +
            jsHour (if med.timesPerDay = 0 then 1 else med.timesPerDay) i % 24 * 60 + 30 }

/-- Where-clause of both `acceptInvitation` and `declineInvitation`:
`{ id, caregiverId: req.user.id, isVerified: false, isActive: true }`. -/
def pendingInvitationWhere (requesterId relId : Nat) (r : CaregiverPatient) : Bool :=
  r.id == relId && r.caregiverId == requesterId && r.isVerified == false && r.isActive == true

/-- Caregiver controller `acceptInvitation` (POST /:id/accept): 404 unless a
pending row matching the where-clause exists, else set isVerified := true on
the matching row.  First component: true when the transition happened. -/
def acceptInvitation (rels : List CaregiverPatient) (requesterId relId : Nat) :
    Bool × List CaregiverPatient :=
  if rels.any (pendingInvitationWhere requesterId relId) then
    (true, rels.map fun r =>
      if pendingInvitationWhere requesterId relId r then { r with isVerified := true } else r)
  else (false, rels)

/-- Caregiver controller `declineInvitation` (POST /:id/decline): same
where-clause, sets isActive := false on the matching row. -/
def declineInvitation (rels : List CaregiverPatient) (requesterId relId : Nat) :
    Bool × List CaregiverPatient :=
  if rels.any (pendingInvitationWhere requesterId relId) then
    (true, rels.map fun r =>
      if pendingInvitationWhere requesterId relId r then { r with isActive := false } else r)
  else (false, rels)

/-- Caregiver controller `inviteCaregiver` (POST /caregivers/invite) after
the invited email has been resolved to `caregiverUserId`: 400 on
self-invite, 409 when an active row for the pair already exists, otherwise
create the link with isVerified := false and isActive := true. -/
def inviteCaregiver (rels : List CaregiverPatient) (patientId caregiverUserId freshId : Nat)
    (relationshipType : Option String) :
    Except String (List CaregiverPatient × CaregiverPatient) :=
  if caregiverUserId = patientId then
    .error "You cannot invite yourself."
  else if rels.any (fun r =>
      r.caregiverId == caregiverUserId && r.patientId == patientId && r.isActive) then
    .error "Caregiver already connected."
  else
    .ok (rels ++ [{ id := freshId, caregiverId := caregiverUserId, patientId := patientId,
                    relationshipType := relationshipType.getD "other",
                    isVerified := false, isActive := true }],
         { id := freshId, caregiverId := caregiverUserId, patientId := patientId,
           relationshipType := relationshipType.getD "other",
           isVerified := false, isActive := true })

end CareSync

namespace CareSync

/-- C1 counterexample: a requester whose role is "patient" but who holds an
active, verified CaregiverPatient row for the target.  The claimed truth
table grants access through that row, yet `_validateAccess` returns false
because the relationship branch is only consulted for role "caregiver". -/
theorem validateAccess_claim_counterexample :
    _validateAccess [⟨5, 1, 2, "child", true, true⟩] ⟨1, "patient"⟩ 2 = false ∧
    accessClaim [⟨5, 1, 2, "child", true, true⟩] ⟨1, "patient"⟩ 2 := by
  constructor
  · rfl
  · right; right; right
    exact ⟨⟨5, 1, 2, "child", true, true⟩, by decide, rfl, rfl, rfl, rfl⟩

/-- C1 (corrected): `authorize(R, T)` returns true iff R.id = T, or R.role is
"admin" or "healthcareprovider", or R.role is "caregiver" AND an active,
verified CaregiverPatient row with caregiverId = R.id and patientId = T
exists; in every other case it returns false.  (The relationship disjunct
additionally requires the requester's role to be "caregiver".) -/
theorem validateAccess_characterization (rels : List CaregiverPatient) (R : User) (T : Nat) :
    _validateAccess rels R T = true ↔
      (R.id = T ∨ R.role = "admin" ∨ R.role = "healthcareprovider" ∨
        (R.role = "caregiver" ∧ ∃ r ∈ rels, r.caregiverId = R.id ∧ r.patientId = T ∧
          r.isActive = true ∧ r.isVerified = true)) := by
  unfold _validateAccess
  split_ifs with h1 h2 h3
  · simp [h1]
  · simp [h2.elim Or.inl Or.inr]
    tauto
  · rw [List.any_eq_true]
    constructor
    · rintro ⟨r, hr, hb⟩
      simp only [Bool.and_eq_true, beq_iff_eq] at hb
      obtain ⟨⟨⟨hc, hp⟩, ha⟩, hv⟩ := hb
      exact Or.inr (Or.inr (Or.inr ⟨h3, r, hr, hc, hp, ha, hv⟩))
    · rintro (h | h | h | ⟨-, r, hr, hc, hp, ha, hv⟩)
      · exact absurd h h1
      · exact absurd (Or.inl h) h2
      · exact absurd (Or.inr h) h2
      · exact ⟨r, hr, by simp [hc, hp, ha, hv]⟩
  · simp only [Bool.false_eq_true, false_iff]
    rintro (h | h | h | ⟨h, -⟩)
    · exact h1 h
    · exact h2 (Or.inl h)
    · exact h2 (Or.inr h)
    · exact h3 h

end CareSync

namespace CareSync

/-- Concrete medication with an empty bottle (remainingQuantity = 0). -/
def emptyStockMed : Medication :=
  { id := 1, userId := 1, name := "Lisinopril", dosage := "10", dosageUnit := "mg",
    timesPerDay := 1, totalQuantity := 30, remainingQuantity := 0, isActive := true }

/-- Store holding only the empty-bottle medication. -/
def emptyStockStore : Store := { medications := [emptyStockMed], adherence := [] }

/-- C2 (code bug): recording a taken intake against a medication with
remainingQuantity = 0 drives the stock to -1.  The decrement is the plain
`med.decrement('remainingQuantity', { by: 1 })` with no clamp, so the claimed
`max(R - 1, 0)` behaviour (never negative) fails at R = 0, where the claim
demands the stock stay at 0. -/
theorem recordAdherence_stock_goes_negative :
    (recordAdherence emptyStockStore 1 1 (some "taken") none none 50 7).medications.map
        Medication.remainingQuantity = [-1] ∧
    max ((0 : Int) - 1) 0 = 0 := by
  constructor
  · rfl
  · decide

/-- Concrete medication with five doses left. -/
def midStockMed : Medication :=
  { id := 1, userId := 1, name := "Metformin", dosage := "500", dosageUnit := "mg",
    timesPerDay := 2, totalQuantity := 60, remainingQuantity := 5, isActive := true }

/-- Store holding only the five-dose medication. -/
def midStockStore : Store := { medications := [midStockMed], adherence := [] }

/-- C3 counterexample: a recordIntake call with no status supplied.  The
created record's status defaults to "taken", yet the stock decrement — which
tests the raw request field `status === 'taken'` — is skipped, so the
medication keeps all five doses although the effective status is "taken". -/
theorem recordAdherence_default_status_no_decrement :
    (recordAdherence midStockStore 1 1 none none none 50 7).adherence =
      [{ id := 7, userId := 1, medicationId := 1, status := "taken",
         takenAt := 50, scheduledTime := 50 }] ∧
    (recordAdherence midStockStore 1 1 none none none 50 7).medications =
      midStockStore.medications := by
  constructor <;> rfl

/-- C3 (corrected): recordIntake always creates exactly one record whose
status is the supplied status or "taken" when none is supplied, with takenAt
and scheduledTime defaulting to the current time; but the stock decrement is
performed exactly when the supplied status is literally "taken" (and the
medication row exists) — a defaulted status of "taken" does not trigger it. -/
theorem recordAdherence_characterization (store : Store) (userId medicationId : Nat)
    (status : Option String) (takenAt scheduledTime : Option Nat) (now freshId : Nat) :
    (recordAdherence store userId medicationId status takenAt scheduledTime now freshId).adherence =
      store.adherence ++
        [{ id := freshId, userId := userId, medicationId := medicationId,
           status := status.getD "taken", takenAt := takenAt.getD now,
           scheduledTime := scheduledTime.getD now }] ∧
    (recordAdherence store userId medicationId status takenAt scheduledTime now freshId).medications =
      (if status = some "taken" ∧ (findByPk store.medications medicationId).isSome = true
       then decrementRemaining store.medications medicationId
       else store.medications) := by
  by_cases hTaken : status = some "taken"
  · cases hFind : findByPk store.medications medicationId with
    | none => simp [recordAdherence, hTaken, hFind]
    | some m => simp [recordAdherence, hTaken, hFind]
  · simp [recordAdherence, hTaken]

end CareSync

namespace CareSync

/-- Bulk-sync payload entry reporting a taken dose (and smuggling a foreign
userId, which the controller overrides). -/
def takenBulkInput : BulkRecordInput :=
  { medicationId := 1, status := "taken", takenAt := none, scheduledTime := 9,
    userId := some 99 }

/-- Adherence row the bulk endpoint creates from `takenBulkInput`. -/
def takenBulkRow : Adherence :=
  { id := 100, userId := 1, medicationId := 1, status := "taken",
    takenAt := 20, scheduledTime := 9 }

/-- C4 counterexample: a one-element batch containing a "taken" record for a
medication with five doses left.  The batch is persisted, yet the owning
medication keeps remainingQuantity = 5: the bulk path performs no stock
decrement at all, so "every record is persisted together with its associated
stock decrement" fails while records are still persisted. -/
theorem bulkRecord_taken_without_decrement :
    bulkRecordAdherence midStockStore 1 [takenBulkInput] 20 100 =
      some ({ medications := [midStockMed], adherence := [takenBulkRow] }, [takenBulkRow]) ∧
    midStockMed.remainingQuantity = 5 ∧ takenBulkInput.status = "taken" := by
  refine ⟨rfl, rfl, rfl⟩

/-- C4 (corrected): bulkRecord validates only that the records array is
non-empty before touching storage; a non-empty batch is persisted in one
all-or-nothing bulkCreate — whenever the call succeeds, exactly one
adherence row per submitted record is appended and the medications table is
left completely unchanged: no stock decrement accompanies any record. -/
theorem bulkRecord_no_stock_change (store : Store) (requesterId : Nat)
    (records : List BulkRecordInput) (now freshIdBase : Nat)
    (s' : Store) (created : List Adherence)
    (h : bulkRecordAdherence store requesterId records now freshIdBase = some (s', created)) :
    records ≠ [] ∧ s'.medications = store.medications ∧
    s'.adherence = store.adherence ++ created ∧ created.length = records.length := by
  rw [bulkRecordAdherence] at h
  by_cases he : records.isEmpty
  · rw [if_pos he] at h
    exact absurd h (by simp)
  · rw [if_neg he] at h
    obtain ⟨h1, h2⟩ := Prod.ext_iff.mp (Option.some.inj h)
    dsimp only at h1 h2
    subst h1
    subst h2
    refine ⟨by simpa using he, rfl, rfl, ?_⟩
    simp [mkBulkAdherence]

/-- C4 witness: the amended theorem applied to the concrete one-record
"taken" batch. -/
theorem bulkRecord_no_stock_change_witness :
    ([takenBulkInput] : List BulkRecordInput) ≠ [] ∧
    ({ medications := [midStockMed], adherence := [takenBulkRow] } : Store).medications =
      midStockStore.medications ∧
    ({ medications := [midStockMed], adherence := [takenBulkRow] } : Store).adherence =
      midStockStore.adherence ++ [takenBulkRow] ∧
    ([takenBulkRow] : List Adherence).length = ([takenBulkInput] : List BulkRecordInput).length :=
  bulkRecord_no_stock_change midStockStore 1 [takenBulkInput] 20 100
    { medications := [midStockMed], adherence := [takenBulkRow] } [takenBulkRow] rfl

/-- C9 (confirmed): every adherence row created by the bulk endpoint carries
the requester's own userId — the spread `{...record, userId: req.user.id}`
overrides any userId supplied inside the payload, so a requester can never
create records owned by another user through POST /adherence/bulk. -/
theorem bulkRecord_userId_override (store : Store) (requesterId : Nat)
    (records : List BulkRecordInput) (now freshIdBase : Nat)
    (s' : Store) (created : List Adherence)
    (h : bulkRecordAdherence store requesterId records now freshIdBase = some (s', created)) :
    ∀ rec ∈ created, rec.userId = requesterId := by
  rw [bulkRecordAdherence] at h
  by_cases he : records.isEmpty
  · rw [if_pos he] at h
    exact absurd h (by simp)
  · rw [if_neg he] at h
    obtain ⟨-, h2⟩ := Prod.ext_iff.mp (Option.some.inj h)
    dsimp only at h2
    subst h2
    intro rec hrec
    simp only [mkBulkAdherence, List.mem_map] at hrec
    obtain ⟨p, -, rfl⟩ := hrec
    rfl

/-- C9 witness: the payload of `takenBulkInput` claims userId 99, yet the
row created for requester 1 has userId 1. -/
theorem bulkRecord_userId_override_witness : takenBulkRow.userId = 1 :=
  bulkRecord_userId_override midStockStore 1 [takenBulkInput] 20 100
    { medications := [midStockMed], adherence := [takenBulkRow] } [takenBulkRow] rfl
    takenBulkRow (by decide)

end CareSync

namespace CareSync

/-- Concrete once-daily medication with eight doses left. -/
def eightLeftMed : Medication :=
  { id := 2, userId := 1, name := "Atorvastatin", dosage := "20", dosageUnit := "mg",
    timesPerDay := 1, totalQuantity := 30, remainingQuantity := 8, isActive := true }

/-- C5 counterexample: with timesPerDay = 1 and remainingQuantity = 8 the
canonical rule `remaining <= max(timesPerDay,1)*7` says no refill is needed
(8 > 7), and the refill-needed filter agrees — but the upcoming-dose flag
(`remaining < 10`) and the low-stock count (`remaining <= 10`) both fire:
two further, inconsistent thresholds are in use. -/
theorem refill_thresholds_disagree :
    refillNeededFilter eightLeftMed = needsRefillSpec eightLeftMed ∧
    needsRefillSpec eightLeftMed = false ∧
    isRefillDue eightLeftMed = true ∧
    lowStockFilter eightLeftMed = true := by decide

/-- C5 (corrected): only the refill-needed filter implements the rule
`remainingQuantity <= max(timesPerDay, 1) * 7`; the upcoming-dose refill
flag instead tests `remainingQuantity < 10` and the low-stock count tests
`remainingQuantity <= 10` — three threshold rules, not one. -/
theorem refill_threshold_rules (med : Medication) :
    refillNeededFilter med = needsRefillSpec med ∧
    (isRefillDue med = true ↔ med.remainingQuantity < 10) ∧
    (lowStockFilter med = true ↔ med.remainingQuantity ≤ 10) := by
  refine ⟨?_, by simp [isRefillDue], by simp [lowStockFilter]⟩
  unfold refillNeededFilter needsRefillSpec
  rcases Nat.eq_zero_or_pos med.timesPerDay with h | h
  · rw [h]
    rfl
  · rw [if_neg (by omega), Nat.max_eq_left h]

/-- Minute-timeline form of the claim's wrap rule: landing on calendar day
`d + hour / 24` at hour `hour % 24` is the same instant as day d at the raw
(possibly ≥ 24) hour. -/
theorem time_wrap (d h : Nat) :
    (d + h / 24) * 1440 + h % 24 * 60 = d * 1440 + h * 60 := by omega

/-- Medication dosed 692 times per day: the smallest timesPerDay at which
the binary64 hour computation and the exact hour 8 + i * (24 / k) part ways
(at occurrence i = 519). -/
def med692 : Medication :=
  { id := 4, userId := 1, name := "Stress", dosage := "1", dosageUnit := "mg",
    timesPerDay := 692, totalQuantity := 692, remainingQuantity := 692, isActive := true }

set_option maxRecDepth 40000 in
/-- C6 counterexample: at timesPerDay = 692, occurrence i = 519, the claimed
hour 8 + 519 * (24 / 692) is exactly 26, yet the JS double computation gives
8 + 519 * (24 / 692) = 25.999999999999996, which setHours truncates to 25:
the generator emits the dose at minute 25 * 60 of the same day (1500)
instead of the claimed next-day 02:00 (minute 1560), so the schedule does
not place every entry at the exact hour 8 + i * (24 / k). -/
theorem generateSchedule_exact_hour_counterexample :
    jsHour 692 519 = 25 ∧ 8 + 24 * 519 / 692 = 26 ∧
    (generateSchedule [med692] 0 0)[519]? = some
      { medicationId := 4, day := 0, occurrence := 519, title := "Take Stress",
        dosageLabel := "1 mg", start := 25 * 60, stop := 25 * 60 + 30 } ∧
    25 * 60 ≠ (0 + 26 / 24) * 1440 + 26 % 24 * 60 := by
  refine ⟨by decide, by decide, by decide, by decide⟩

/-- C6 (corrected): the schedule generator emits, for each calendar date of
the inclusive range, each active medication with effective timesPerDay k
(1 when unset or zero) and each occurrence i < k, exactly one entry with
windowEnd 30 minutes later, in date-medication-occurrence order, whose hour
is the setHours truncation of the binary64 value 8 + i * (24 / k) — which
coincides with the exact 8 + floor(24 i / k) except where float rounding
crosses an integer boundary (first at k = 692, i = 519) — with minutes and
seconds zeroed; an hour of 24 or more wraps into the following calendar
date rather than being clamped. -/
theorem generateSchedule_eq_spec (meds : List Medication) (startDay days : Nat) :
    generateSchedule meds startDay days = scheduleSpec meds startDay days := by
  unfold generateSchedule scheduleSpec
  simp only [time_wrap]

end CareSync

namespace CareSync

/-- Helper: appending one row to a relationship table whose ids all differ
from the looked-up id makes both the existence check and the row update of
accept/decline act on that appended row alone. -/
theorem pending_update_append (rels : List CaregiverPatient) (c f : Nat)
    (row : CaregiverPatient) (upd : CaregiverPatient → CaregiverPatient)
    (hFresh : ∀ r ∈ rels, r.id ≠ f) :
    (rels ++ [row]).any (pendingInvitationWhere c f) = pendingInvitationWhere c f row ∧
    (rels ++ [row]).map
        (fun r => if pendingInvitationWhere c f r then upd r else r) =
      rels ++ [if pendingInvitationWhere c f row then upd row else row] := by
  induction rels with
  | nil => simp
  | cons a l ih =>
      have ha : pendingInvitationWhere c f a = false := by
        unfold pendingInvitationWhere
        have hne : (a.id == f) = false := beq_eq_false_iff_ne.mpr (hFresh a (by simp))
        simp [hne]
      obtain ⟨ih1, ih2⟩ := ih fun r hr => hFresh r (List.mem_cons_of_mem a hr)
      constructor
      · simp [ha, ih1]
      · simp [ha, ih2]

/-- C7 (confirmed): lifecycle of one relationship row.  Starting from any
table whose rows collide with neither the (caregiver, patient) pair nor the
fresh id: invite creates the row with isVerified = false and isActive =
true; accept on the pending row sets isVerified := true; decline on the
pending row sets isActive := false; and every later accept or decline on the
accepted or declined row reports NotFound (first component false) and leaves
the table unchanged — a closed relationship is never reopened. -/
theorem relationship_lifecycle (rels : List CaregiverPatient)
    (patientId caregiverId freshId : Nat) (relType : Option String)
    (hSelf : caregiverId ≠ patientId)
    (hDup : ∀ r ∈ rels,
      (r.caregiverId == caregiverId && r.patientId == patientId && r.isActive) = false)
    (hFresh : ∀ r ∈ rels, r.id ≠ freshId) :
    inviteCaregiver rels patientId caregiverId freshId relType =
      .ok (rels ++ [⟨freshId, caregiverId, patientId, relType.getD "other", false, true⟩],
           ⟨freshId, caregiverId, patientId, relType.getD "other", false, true⟩) ∧
    acceptInvitation
        (rels ++ [⟨freshId, caregiverId, patientId, relType.getD "other", false, true⟩])
        caregiverId freshId =
      (true, rels ++ [⟨freshId, caregiverId, patientId, relType.getD "other", true, true⟩]) ∧
    declineInvitation
        (rels ++ [⟨freshId, caregiverId, patientId, relType.getD "other", false, true⟩])
        caregiverId freshId =
      (true, rels ++ [⟨freshId, caregiverId, patientId, relType.getD "other", false, false⟩]) ∧
    acceptInvitation
        (rels ++ [⟨freshId, caregiverId, patientId, relType.getD "other", true, true⟩])
        caregiverId freshId =
      (false, rels ++ [⟨freshId, caregiverId, patientId, relType.getD "other", true, true⟩]) ∧
    declineInvitation
        (rels ++ [⟨freshId, caregiverId, patientId, relType.getD "other", true, true⟩])
        caregiverId freshId =
      (false, rels ++ [⟨freshId, caregiverId, patientId, relType.getD "other", true, true⟩]) ∧
    acceptInvitation
        (rels ++ [⟨freshId, caregiverId, patientId, relType.getD "other", false, false⟩])
        caregiverId freshId =
      (false, rels ++ [⟨freshId, caregiverId, patientId, relType.getD "other", false, false⟩]) ∧
    declineInvitation
        (rels ++ [⟨freshId, caregiverId, patientId, relType.getD "other", false, false⟩])
        caregiverId freshId =
      (false, rels ++ [⟨freshId, caregiverId, patientId, relType.getD "other", false, false⟩]) := by
  have hAny : rels.any (fun r =>
      r.caregiverId == caregiverId && r.patientId == patientId && r.isActive) = false := by
    apply Bool.eq_false_iff.mpr
    intro hh
    obtain ⟨r, hr, hfr⟩ := List.any_eq_true.mp hh
    rw [hDup r hr] at hfr
    exact Bool.false_ne_true hfr
  have hPend : pendingInvitationWhere caregiverId freshId
      ⟨freshId, caregiverId, patientId, relType.getD "other", false, true⟩ = true := by
    simp [pendingInvitationWhere]
  have hAcc : pendingInvitationWhere caregiverId freshId
      ⟨freshId, caregiverId, patientId, relType.getD "other", true, true⟩ = false := by
    simp [pendingInvitationWhere]
  have hDec : pendingInvitationWhere caregiverId freshId
      ⟨freshId, caregiverId, patientId, relType.getD "other", false, false⟩ = false := by
    simp [pendingInvitationWhere]
  refine ⟨?_, ?_, ?_, ?_, ?_, ?_, ?_⟩
  · rw [inviteCaregiver, if_neg hSelf, if_neg (by simp [hAny])]
  · obtain ⟨h1, h2⟩ := pending_update_append rels caregiverId freshId
      ⟨freshId, caregiverId, patientId, relType.getD "other", false, true⟩
      (fun r => { r with isVerified := true }) hFresh
    rw [acceptInvitation, if_pos (by rw [h1]; exact hPend), h2, if_pos hPend]
  · obtain ⟨h1, h2⟩ := pending_update_append rels caregiverId freshId
      ⟨freshId, caregiverId, patientId, relType.getD "other", false, true⟩
      (fun r => { r with isActive := false }) hFresh
    rw [declineInvitation, if_pos (by rw [h1]; exact hPend), h2, if_pos hPend]
  · obtain ⟨h1, -⟩ := pending_update_append rels caregiverId freshId
      ⟨freshId, caregiverId, patientId, relType.getD "other", true, true⟩
      (fun r => { r with isVerified := true }) hFresh
    rw [acceptInvitation, if_neg (by rw [h1, hAcc]; exact Bool.false_ne_true)]
  · obtain ⟨h1, -⟩ := pending_update_append rels caregiverId freshId
      ⟨freshId, caregiverId, patientId, relType.getD "other", true, true⟩
      (fun r => { r with isActive := false }) hFresh
    rw [declineInvitation, if_neg (by rw [h1, hAcc]; exact Bool.false_ne_true)]
  · obtain ⟨h1, -⟩ := pending_update_append rels caregiverId freshId
      ⟨freshId, caregiverId, patientId, relType.getD "other", false, false⟩
      (fun r => { r with isVerified := true }) hFresh
    rw [acceptInvitation, if_neg (by rw [h1, hDec]; exact Bool.false_ne_true)]
  · obtain ⟨h1, -⟩ := pending_update_append rels caregiverId freshId
      ⟨freshId, caregiverId, patientId, relType.getD "other", false, false⟩
      (fun r => { r with isActive := false }) hFresh
    rw [declineInvitation, if_neg (by rw [h1, hDec]; exact Bool.false_ne_true)]

/-- C7 witness: the lifecycle theorem run on an empty table, patient 1
inviting caregiver 2, row id 10. -/
theorem relationship_lifecycle_witness :
    inviteCaregiver [] 1 2 10 none =
      .ok ([⟨10, 2, 1, "other", false, true⟩], ⟨10, 2, 1, "other", false, true⟩) ∧
    acceptInvitation [⟨10, 2, 1, "other", false, true⟩] 2 10 =
      (true, [⟨10, 2, 1, "other", true, true⟩]) ∧
    declineInvitation [⟨10, 2, 1, "other", false, true⟩] 2 10 =
      (true, [⟨10, 2, 1, "other", false, false⟩]) ∧
    acceptInvitation [⟨10, 2, 1, "other", true, true⟩] 2 10 =
      (false, [⟨10, 2, 1, "other", true, true⟩]) ∧
    declineInvitation [⟨10, 2, 1, "other", true, true⟩] 2 10 =
      (false, [⟨10, 2, 1, "other", true, true⟩]) ∧
    acceptInvitation [⟨10, 2, 1, "other", false, false⟩] 2 10 =
      (false, [⟨10, 2, 1, "other", false, false⟩]) ∧
    declineInvitation [⟨10, 2, 1, "other", false, false⟩] 2 10 =
      (false, [⟨10, 2, 1, "other", false, false⟩]) :=
  relationship_lifecycle [] 1 2 10 none (by decide) (by simp) (by simp)

end CareSync

namespace CareSync

/-- C8 (confirmed): updateRecord applies the update exactly when the looked
up adherence record exists and its own userId equals the requester's id
(HTTP 200); in every other case — the relationship table is not even an
input to this operation, so caregiver access cannot help — the store is
returned unchanged with a non-200 status. -/
theorem updateAdherenceRecord_owner_only (store : Store) (recordId requesterId : Nat)
    (updates : Adherence → Adherence) :
    ((updateAdherenceRecord store recordId requesterId updates).1 = 200 ↔
      ∃ r, store.adherence.find? (fun x => x.id == recordId) = some r ∧
        r.userId = requesterId) ∧
    (updateAdherenceRecord store recordId requesterId updates).2 =
      (if (updateAdherenceRecord store recordId requesterId updates).1 = 200 then
        { store with adherence := store.adherence.map fun x =>
            if x.id == recordId then updates x else x }
       else store) := by
  unfold updateAdherenceRecord
  cases hF : store.adherence.find? (fun r => r.id == recordId) with
  | none => simp [hF]
  | some r =>
      by_cases hu : r.userId = requesterId
      · simp [hF, hu]
      · simp [hF, hu]

/-- Concrete medication owned by user 1. -/
def ownedMed : Medication :=
  { id := 3, userId := 1, name := "Amlodipine", dosage := "5", dosageUnit := "mg",
    timesPerDay := 1, totalQuantity := 30, remainingQuantity := 12, isActive := true }

/-- Request-body update used in the ownership witnesses. -/
def renameUpdate : Medication → Medication :=
  fun m => { m with name := "Renamed" }

/-- C10 (confirmed): updateMedication and deleteMedication look the row up
by the pair (id, userId = requester id).  Whenever the requester does not
own the medication — the requester's role, admin and healthcareprovider
included, never enters the lookup — both operations report NotFound and
return the medication table unchanged. -/
theorem medication_mutation_owner_only (meds : List Medication) (requester : User)
    (id : Nat) (updates : Medication → Medication)
    (hNotOwner : ∀ m ∈ meds, m.id = id → m.userId ≠ requester.id) :
    updateMedication meds requester id updates = (false, meds) ∧
    deleteMedication meds requester id = (false, meds) := by
  have hF : meds.find? (fun m => m.id == id && m.userId == requester.id) = none := by
    rw [List.find?_eq_none]
    intro m hm
    simp only [Bool.and_eq_true, beq_iff_eq, not_and]
    exact hNotOwner m hm
  constructor
  · unfold updateMedication
    rw [hF]
  · unfold deleteMedication
    rw [hF]

/-- C10 witness: an admin-role requester (id 2) against a medication owned
by user 1 — both mutations are refused and the table is untouched. -/
theorem medication_mutation_owner_only_witness :
    updateMedication [ownedMed] ⟨2, "admin"⟩ 3 renameUpdate = (false, [ownedMed]) ∧
    deleteMedication [ownedMed] ⟨2, "admin"⟩ 3 = (false, [ownedMed]) :=
  medication_mutation_owner_only [ownedMed] ⟨2, "admin"⟩ 3 renameUpdate (by decide)

end CareSync
